import Mathlib

/-
Shallow embedding of the blog application in src/main.py (a Flask app
using SQLAlchemy and flask_login).  The relational store is modelled as
lists kept in insertion order with explicit autoincrement counters, one
request handler per route function.  Form validation (the forms module is
not part of the modelled code) and the HTTP method are boolean parameters
of each handler; the per-call randomness of the password salt is a Nat
parameter.  Rendering is out of scope: a response records only which
template is rendered, where a redirect goes, an abort status, or an
unhandled exception (crash).
-/

namespace Blog

/-- Modelled from the spec: the password-hash primitive
(generate_password_hash and check_password_hash from werkzeug, lines 5,
131-135 and 166 of main.py) is an external collaborator, treated by the
spec as an opaque one-way function with a per-call random salt and a
verify operation that succeeds exactly for the plaintext that was hashed.
We model a hash value abstractly as the method tag, the salt, and a
digest that determines that plaintext uniquely. -/
structure PasswordHash where
  method : String
  salt : Nat
  digest : String
deriving DecidableEq

/-- Modelled from the spec: generate_password_hash with method
pbkdf2:sha256 and a fresh random salt (salt_length 8); the salt is passed
in explicitly as the model of the randomness. -/
def generate_password_hash (salt : Nat) (password : String) : PasswordHash :=
  { method := "pbkdf2:sha256", salt := salt, digest := password }

/-- Modelled from the spec: check_password_hash succeeds exactly when the
supplied plaintext is the one the stored hash was generated from. -/
def check_password_hash (pwhash : PasswordHash) (password : String) : Bool :=
  pwhash.digest == password

/-- users table (main.py lines 48-63). -/
structure User where
  id : Nat
  email : String
  password : PasswordHash
  name : String
deriving DecidableEq

/-- blog_posts table (main.py lines 66-83).  The author relationship is
the foreign key author_id. -/
structure BlogPost where
  id : Nat
  author_id : Nat
  title : String
  subtitle : String
  date : String
  body : String
  img_url : String
deriving DecidableEq

/-- comments table (main.py lines 86-104). -/
structure Comment where
  id : Nat
  text : String
  commenter_id : Nat
  blog_post_id : Nat
deriving DecidableEq

/-- The relational store: three tables in insertion order, with the
autoincrement counters for the integer primary keys. -/
structure DB where
  users : List User
  posts : List BlogPost
  comments : List Comment
  nextUserId : Nat
  nextPostId : Nat
  nextCommentId : Nat
deriving DecidableEq

/-- Whole application state: the database, the module-level in-memory
dict named users (only its keys matter: the emails present at startup,
main.py lines 109-112), and the flask_login session (the id of the
logged-in user, none when anonymous). -/
structure AppState where
  db : DB
  users : List String
  session : Option Nat
deriving DecidableEq

/-- Module initialisation, main.py lines 109-112: the users dict is
filled once, at startup, with the emails already in the database. -/
def startup (db : DB) : AppState :=
  { db := db, users := db.users.map (fun u => u.email), session := none }

/-- load_user (main.py lines 42-44): User.query.get on the session id. -/
def load_user (db : DB) (user_id : Nat) : Option User :=
  db.users.find? (fun u => u.id == user_id)

/-- flask_login current_user: resolves the session to a User, or none
when there is no session or the stored id no longer resolves (anonymous). -/
def current_user (st : AppState) : Option User :=
  match st.session with
  | none => none
  | some uid => load_user st.db uid

/-- current_user.is_authenticated. -/
def is_authenticated (st : AppState) : Bool :=
  (current_user st).isSome

/-- The observable outcome of a request: a rendered template, a redirect
to an endpoint, an abort(403), a 404 (never produced by this code, kept
so claims about it can be stated), or an unhandled exception. -/
inductive Response where
  | page (template : String)
  | redirectTo (endpoint : String)
  | forbidden
  | notFound
  | crash (msg : String)
deriving DecidableEq

/-- Result of one request: flashed messages, the response, and the state
after the request. -/
structure HResult where
  flashes : List String
  response : Response
  state : AppState
deriving DecidableEq

/-- BlogPost.query.all() in get_all_posts (main.py line 117): all posts
in insertion order. -/
def listPosts (db : DB) : List BlogPost :=
  db.posts

/-- BlogPost.query.get(post_id) in show_post (main.py line 187). -/
def requested_post (st : AppState) (post_id : Nat) : Option BlogPost :=
  st.db.posts.find? (fun p => p.id == post_id)

/-- db.session.query(Comment).filter_by(blog_post_id=post_id).all()
(main.py line 189): the comments of a post, in insertion order. -/
def listComments (db : DB) (post_id : Nat) : List Comment :=
  db.comments.filter (fun c => c.blog_post_id == post_id)

/-- Inserting into the users table (db.session.add + commit, main.py
lines 141-142).  The email column is declared unique (line 51); the
store enforces it, so inserting a duplicate email raises instead of
committing. -/
def db_add_user (db : DB) (email : String) (password : PasswordHash) (name : String) :
    Option (DB × User) :=
  if db.users.any (fun u => u.email == email) then none
  else
    let u : User := { id := db.nextUserId, email := email, password := password, name := name }
    some ({ db with users := db.users ++ [u], nextUserId := db.nextUserId + 1 }, u)

/-- register (main.py lines 121-149).  isPost and formValid model
request.method == POST and form.validate_on_submit(); salt models the
fresh random salt of this call.  The duplicate check consults only the
startup users dict; a successful insert logs the new user in but does
not update that dict. -/
def register (st : AppState) (isPost formValid : Bool) (salt : Nat)
    (email password name : String) : HResult :=
  if isPost && formValid then
    if st.users.contains email then
      { flashes := ["You\x27ve already signed up with that email, log in instead!"],
        response := .redirectTo "login", state := st }
    else
      let hash_and_salted_password := generate_password_hash salt password
      match db_add_user st.db email hash_and_salted_password name with
      | none =>
          { flashes := [],
            response := .crash "IntegrityError: UNIQUE constraint failed: users.email",
            state := st }
      | some (db2, new_user) =>
          { flashes := [], response := .redirectTo "get_all_posts",
            state := { st with db := db2, session := some new_user.id } }
  else
    { flashes := [], response := .page "register.html", state := st }

/-- login (main.py lines 152-175).  The existence check consults the
startup users dict; only when it passes is the users table queried and
the stored hash checked. -/
def login (st : AppState) (isPost formValid : Bool) (email password : String) : HResult :=
  if isPost && formValid then
    if !(st.users.contains email) then
      { flashes := ["The username/email does not exist!"],
        response := .redirectTo "login", state := st }
    else
      match st.db.users.find? (fun u => u.email == email) with
      | some new_user =>
          if check_password_hash new_user.password password then
            { flashes := [], response := .redirectTo "get_all_posts",
              state := { st with session := some new_user.id } }
          else
            { flashes := ["The password is incorrect, Please try again"],
              response := .redirectTo "login", state := st }
      | none =>
          { flashes := ["The password is incorrect, Please try again"],
            response := .redirectTo "login", state := st }
  else
    { flashes := [], response := .page "login.html", state := st }

/-- The credential check of login (main.py lines 164-166), taken on its
own: look the user up by email in the users table and verify the stored
hash against the supplied plaintext. -/
def verify (db : DB) (email password : String) : Option User :=
  match db.users.find? (fun u => u.email == email) with
  | none => none
  | some u => if check_password_hash u.password password then some u else none

/-- logout (main.py lines 178-181). -/
def logout (st : AppState) : HResult :=
  { flashes := [], response := .redirectTo "get_all_posts",
    state := { st with session := none } }

/-- show_post (main.py lines 184-216).  On POST, a comment is stored
only when the form validates and current_user is authenticated; in every
other POST case the handler flashes and redirects to login.  On GET the
post page is rendered whether or not the post exists (query.get simply
returns None). -/
def show_post (st : AppState) (post_id : Nat) (isPost formValid : Bool)
    (commentText : String) : HResult :=
  if isPost then
    match formValid, current_user st with
    | true, some u =>
        let new_comment : Comment :=
          { id := st.db.nextCommentId, text := commentText,
            commenter_id := u.id, blog_post_id := post_id }
        { flashes := [], response := .page "post.html",
          state := { st with db := { st.db with
            comments := st.db.comments ++ [new_comment],
            nextCommentId := st.db.nextCommentId + 1 } } }
    | _, _ =>
        { flashes := ["You need to login or register to comment"],
          response := .redirectTo "login", state := st }
  else
    { flashes := [], response := .page "post.html", state := st }

/-- admin_only decorator (main.py lines 30-39): it reads current_user.id
before anything else.  An anonymous current_user has no id attribute, so
the read raises; an authenticated user with id other than 1 gets
abort(403); the administrator falls through to the wrapped function. -/
def admin_only (st : AppState) (handler : AppState → HResult) : HResult :=
  match current_user st with
  | none =>
      { flashes := [],
        response := .crash "AttributeError: AnonymousUserMixin has no attribute id",
        state := st }
  | some u =>
      if u.id != 1 then { flashes := [], response := .forbidden, state := st }
      else handler st

/-- flask_login login_required decorator (used on edit_post, main.py
line 252): anonymous requests are redirected to the login view. -/
def login_required (st : AppState) (handler : AppState → HResult) : HResult :=
  if is_authenticated st then handler st
  else { flashes := [], response := .redirectTo "login", state := st }

/-- Inserting into the blog_posts table (db.session.add + commit, main.py
lines 243-244).  The title column is declared unique (line 79); the store
enforces it. -/
def db_add_post (db : DB) (title subtitle body img_url dateStr : String)
    (author_id : Nat) : Option (DB × BlogPost) :=
  if db.posts.any (fun p => p.title == title) then none
  else
    let p : BlogPost := { id := db.nextPostId, author_id := author_id, title := title,
                          subtitle := subtitle, date := dateStr, body := body,
                          img_url := img_url }
    some ({ db with posts := db.posts ++ [p], nextPostId := db.nextPostId + 1 }, p)

/-- Body of add_new_post (main.py lines 231-247), before the admin_only
wrapper.  today models date.today().strftime. -/
def add_new_post_body (formValid : Bool) (title subtitle body img_url today : String)
    (st : AppState) : HResult :=
  if formValid then
    match current_user st with
    | some u =>
        match db_add_post st.db title subtitle body img_url today u.id with
        | none =>
            { flashes := [],
              response := .crash "IntegrityError: UNIQUE constraint failed: blog_posts.title",
              state := st }
        | some (db2, _) =>
            { flashes := [], response := .redirectTo "get_all_posts",
              state := { st with db := db2 } }
    | none =>
        { flashes := [],
          response := .crash "AttributeError: AnonymousUserMixin has no attribute id",
          state := st }
  else
    { flashes := [], response := .page "make-post.html", state := st }

/-- add_new_post route (main.py lines 229-247): admin_only around the
body. -/
def add_new_post (st : AppState) (formValid : Bool)
    (title subtitle body img_url today : String) : HResult :=
  admin_only st (add_new_post_body formValid title subtitle body img_url today)

/-- Body of edit_post (main.py lines 253-271), before the decorators.
BlogPost.query.get is called first and the result is dereferenced to
pre-fill the form, so a missing id raises.  On a valid submit the four
form fields replace the stored ones; author (commented out in the
source) and date are left untouched. -/
def edit_post_body (post_id : Nat) (formValid : Bool)
    (title subtitle img_url body : String) (st : AppState) : HResult :=
  match st.db.posts.find? (fun p => p.id == post_id) with
  | none =>
      { flashes := [],
        response := .crash "AttributeError: NoneType has no attribute title",
        state := st }
  | some post =>
      if formValid then
        let post2 := { post with
          title := title,
          subtitle := subtitle,
          img_url := img_url,
          body := body }
        { flashes := [], response := .redirectTo "show_post",
          state := { st with db := { st.db with
            posts := st.db.posts.map (fun p => if p.id = post_id then post2 else p) } } }
      else
        { flashes := [], response := .page "make-post.html", state := st }

/-- edit_post route (main.py lines 250-271): admin_only outside,
login_required inside (decorator order lines 251-252), then the body. -/
def edit_post (st : AppState) (post_id : Nat) (formValid : Bool)
    (title subtitle img_url body : String) : HResult :=
  admin_only st (fun s =>
    login_required s (edit_post_body post_id formValid title subtitle img_url body))

/-- Body of delete_post (main.py lines 276-280): query.get then
db.session.delete; deleting None raises.  Comments are not touched. -/
def delete_post_body (post_id : Nat) (st : AppState) : HResult :=
  match st.db.posts.find? (fun p => p.id == post_id) with
  | none =>
      { flashes := [],
        response := .crash "UnmappedInstanceError: None is not mapped",
        state := st }
  | some _ =>
      { flashes := [], response := .redirectTo "get_all_posts",
        state := { st with db := { st.db with
          posts := st.db.posts.filter (fun p => p.id != post_id) } } }

/-- delete_post route (main.py lines 274-280): admin_only around the
body. -/
def delete_post (st : AppState) (post_id : Nat) : HResult :=
  admin_only st (delete_post_body post_id)

/-- An empty database, as after db.create_all() on a fresh file. -/
def emptyDB : DB :=
  { users := [], posts := [], comments := [], nextUserId := 1, nextPostId := 1,
    nextCommentId := 1 }

/-- Concrete fixture: the administrator account (id 1). -/
def admin0 : User :=
  { id := 1, email := "admin@x.com", password := generate_password_hash 1 "adminpw",
    name := "Admin" }

/-- Concrete fixture: an ordinary registered user (id 2). -/
def user2 : User :=
  { id := 2, email := "bob@x.com", password := generate_password_hash 2 "bobpw",
    name := "Bob" }

/-- Concrete fixture: one published post, authored by the administrator. -/
def post1 : BlogPost :=
  { id := 1, author_id := 1, title := "First", subtitle := "Sub",
    date := "June 01, 2024", body := "Body", img_url := "img" }

/-- Concrete fixture: one comment by user 2 on post 1. -/
def comment1 : Comment :=
  { id := 1, text := "Nice", commenter_id := 2, blog_post_id := 1 }

/-- Concrete fixture: a store holding both users, the post and the
comment. -/
def dbFull : DB :=
  { users := [admin0, user2], posts := [post1], comments := [comment1],
    nextUserId := 3, nextPostId := 2, nextCommentId := 2 }

/-- Concrete fixture: dbFull at startup, administrator logged in. -/
def stAdmin : AppState :=
  { db := dbFull, users := ["admin@x.com", "bob@x.com"], session := some 1 }

/-- Concrete fixture: dbFull at startup, ordinary user 2 logged in. -/
def stUser2 : AppState :=
  { db := dbFull, users := ["admin@x.com", "bob@x.com"], session := some 2 }

/-- Concrete fixture: dbFull at startup, nobody logged in. -/
def stAnon : AppState := startup dbFull

/-- Claim C1: the spec end-to-end sequence fails on this code.  Register
with a fresh email does create the user and auto-log it in, and logout
clears the session; but the subsequent login with the correct password is
rejected with the flash message that the email does not exist, because
login consults the in-memory users dict built at startup, which register
never updates.  (Login with a wrong password fails the same way.) -/
theorem C1_register_then_login_fails :
    ((register (startup emptyDB) true true 8 "a@x.com" "pw1" "Aya").state.db.users.map
      (fun u => u.email) = ["a@x.com"])
    ∧ (register (startup emptyDB) true true 8 "a@x.com" "pw1" "Aya").state.session = some 1
    ∧ (logout (register (startup emptyDB) true true 8 "a@x.com" "pw1" "Aya").state).state.session
        = none
    ∧ (login (logout (register (startup emptyDB) true true 8 "a@x.com" "pw1" "Aya").state).state
        true true "a@x.com" "pw1").response = Response.redirectTo "login"
    ∧ (login (logout (register (startup emptyDB) true true 8 "a@x.com" "pw1" "Aya").state).state
        true true "a@x.com" "pw1").flashes = ["The username/email does not exist!"]
    ∧ (login (logout (register (startup emptyDB) true true 8 "a@x.com" "pw1" "Aya").state).state
        true true "a@x.com" "pw1").state.session = none
    ∧ (login (logout (register (startup emptyDB) true true 8 "a@x.com" "pw1" "Aya").state).state
        true true "a@x.com" "wrong").response = Response.redirectTo "login" := by
  decide

/-- Claim C3: registering an email that is already among the registered
users is not always rejected.  An email present in the startup snapshot
is rejected with the duplicate flash and no new record; but an email
registered after startup is missed by the in-memory check, and the second
registration reaches the insert and dies on the unique-email constraint
instead of failing with the duplicate message. -/
theorem C3_duplicate_email_not_always_rejected :
    ((register stAnon true true 9 "bob@x.com" "p" "B2").flashes
      = ["You\x27ve already signed up with that email, log in instead!"])
    ∧ (register stAnon true true 9 "bob@x.com" "p" "B2").state = stAnon
    ∧ (register ((register (startup emptyDB) true true 1 "a@x.com" "p1" "N1").state)
        true true 2 "a@x.com" "p2" "N2").response
      = Response.crash "IntegrityError: UNIQUE constraint failed: users.email"
    ∧ (register ((register (startup emptyDB) true true 1 "a@x.com" "p1" "N1").state)
        true true 2 "a@x.com" "p2" "N2").flashes = [] := by
  decide

/-- Claim C4: an unknown post id does not produce a 404 anywhere.
Viewing renders the post page with no post, editing dies dereferencing
the missing record, deleting dies passing None to the session delete;
none of the three outcomes is NotFound. -/
theorem C4_unknown_post_id_is_not_404 :
    (show_post stAdmin 7 false true "").response = Response.page "post.html"
    ∧ requested_post stAdmin 7 = none
    ∧ (edit_post stAdmin 7 true "t" "s" "u" "b").response
      = Response.crash "AttributeError: NoneType has no attribute title"
    ∧ (delete_post stAdmin 7).response
      = Response.crash "UnmappedInstanceError: None is not mapped"
    ∧ (show_post stAdmin 7 false true "").response ≠ Response.notFound
    ∧ (edit_post stAdmin 7 true "t" "s" "u" "b").response ≠ Response.notFound
    ∧ (delete_post stAdmin 7).response ≠ Response.notFound := by
  decide

/-- Claim C5: a valid comment posted by an authenticated user to a post
id that does not exist is not rejected with NotFound: the handler stores
an orphaned comment referencing the missing post and renders the page. -/
theorem C5_comment_on_missing_post_is_stored :
    requested_post stUser2 999 = none
    ∧ (show_post stUser2 999 true true "hello").response = Response.page "post.html"
    ∧ (show_post stUser2 999 true true "hello").state.db.comments
      = [comment1, { id := 2, text := "hello", commenter_id := 2, blog_post_id := 999 }]
    ∧ (show_post stUser2 999 true true "hello").response ≠ Response.notFound := by
  decide

/-- Claim C2, counterexample: an anonymous request to the delete-post
route is not redirected to login (nor given 403): reading current_user.id
raises and the request dies with an unhandled error. -/
theorem C2_anonymous_is_not_redirected :
    (delete_post stAnon 1).response
      = Response.crash "AttributeError: AnonymousUserMixin has no attribute id"
    ∧ (delete_post stAnon 1).response ≠ Response.redirectTo "login"
    ∧ (delete_post stAnon 1).response ≠ Response.forbidden := by
  decide

/-- Claim C7, counterexample: after the administrator deletes post 1,
viewing post 1 does not yield NotFound: the post page is rendered with
no post, and the orphaned comment on post 1 is still in the store. -/
theorem C7_view_after_delete_is_not_404 :
    (show_post (delete_post stAdmin 1).state 1 false true "").response
      = Response.page "post.html"
    ∧ (show_post (delete_post stAdmin 1).state 1 false true "").response ≠ Response.notFound
    ∧ (delete_post stAdmin 1).state.db.comments = [comment1] := by
  decide

/-- Claim C9, counterexample: editing an unknown post id does not fail
with NotFound: the handler dereferences the missing record and dies. -/
theorem C9_edit_unknown_id_is_not_notfound :
    (edit_post stAdmin 42 true "t2" "s2" "u2" "b2").response
      = Response.crash "AttributeError: NoneType has no attribute title"
    ∧ (edit_post stAdmin 42 true "t2" "s2" "u2" "b2").response ≠ Response.notFound := by
  decide

/-- Claim C2, amended: on each of the three management routes the wrapped
handler body runs exactly when the resolved current user has id 1; any
other authenticated user gets abort(403) with the state unchanged; an
anonymous request gets neither 403 nor a redirect to login but an
unhandled error from reading the missing id attribute. -/
theorem C2_admin_guard (st : AppState) (pid : Nat) (fv : Bool)
    (t s iu b today : String) :
    (current_user st = none →
      delete_post st pid
        = { flashes := [],
            response := .crash "AttributeError: AnonymousUserMixin has no attribute id",
            state := st }
      ∧ edit_post st pid fv t s iu b
        = { flashes := [],
            response := .crash "AttributeError: AnonymousUserMixin has no attribute id",
            state := st }
      ∧ add_new_post st fv t s b iu today
        = { flashes := [],
            response := .crash "AttributeError: AnonymousUserMixin has no attribute id",
            state := st })
    ∧ (∀ u, current_user st = some u → u.id ≠ 1 →
      delete_post st pid = { flashes := [], response := .forbidden, state := st }
      ∧ edit_post st pid fv t s iu b = { flashes := [], response := .forbidden, state := st }
      ∧ add_new_post st fv t s b iu today
        = { flashes := [], response := .forbidden, state := st })
    ∧ (∀ u, current_user st = some u → u.id = 1 →
      delete_post st pid = delete_post_body pid st
      ∧ edit_post st pid fv t s iu b = edit_post_body pid fv t s iu b st
      ∧ add_new_post st fv t s b iu today = add_new_post_body fv t s b iu today st) := by
  refine ⟨?_, ?_, ?_⟩
  · intro h
    refine ⟨?_, ?_, ?_⟩ <;> simp [delete_post, edit_post, add_new_post, admin_only, h]
  · intro u hu hne
    refine ⟨?_, ?_, ?_⟩ <;>
      simp [delete_post, edit_post, add_new_post, admin_only, hu, hne]
  · intro u hu h1
    refine ⟨?_, ?_, ?_⟩ <;>
      simp [delete_post, edit_post, add_new_post, admin_only, login_required,
        is_authenticated, hu, h1]

/-- Witness for C2_admin_guard at concrete states: anonymous delete dies,
a non-admin delete is forbidden, the administrator reaches the body. -/
theorem C2_admin_guard_witness :
    delete_post stAnon 5
      = { flashes := [],
          response := .crash "AttributeError: AnonymousUserMixin has no attribute id",
          state := stAnon }
    ∧ delete_post stUser2 5 = { flashes := [], response := .forbidden, state := stUser2 }
    ∧ delete_post stAdmin 5 = delete_post_body 5 stAdmin :=
  ⟨((C2_admin_guard stAnon 5 true "t" "s" "u" "b" "d").1 (by decide)).1,
   ((C2_admin_guard stUser2 5 true "t" "s" "u" "b" "d").2.1 user2 (by decide) (by decide)).1,
   ((C2_admin_guard stAdmin 5 true "t" "s" "u" "b" "d").2.2 admin0 (by decide) rfl).1⟩

/-- Claim C6: a valid comment on an existing post by an authenticated
user appends exactly one Comment carrying the id of that post and the id
of that user, and the comment listing of the post afterwards is the old
listing, in order, with the new comment at the end. -/
theorem C6_comment_appended (st : AppState) (u : User) (post : BlogPost) (text : String)
    (hu : current_user st = some u) (hp : post ∈ st.db.posts) :
    (show_post st post.id true true text).state.db.comments
      = st.db.comments ++ [{ id := st.db.nextCommentId, text := text,
                             commenter_id := u.id, blog_post_id := post.id }]
    ∧ listComments (show_post st post.id true true text).state.db post.id
      = listComments st.db post.id ++ [{ id := st.db.nextCommentId, text := text,
                                         commenter_id := u.id, blog_post_id := post.id }] := by
  constructor
  · simp [show_post, hu]
  · simp [show_post, hu, listComments, List.filter_append]

/-- Witness for C6_comment_appended: the administrator comments on
post 1 of the concrete store. -/
theorem C6_comment_appended_witness :
    (show_post stAdmin post1.id true true "hi").state.db.comments
      = stAdmin.db.comments ++ [{ id := stAdmin.db.nextCommentId, text := "hi",
                                  commenter_id := admin0.id, blog_post_id := post1.id }]
    ∧ listComments (show_post stAdmin post1.id true true "hi").state.db post1.id
      = listComments stAdmin.db post1.id ++ [{ id := stAdmin.db.nextCommentId, text := "hi",
                                               commenter_id := admin0.id,
                                               blog_post_id := post1.id }] :=
  C6_comment_appended stAdmin admin0 post1 "hi" (by decide) (by decide)

/-- Claim C10: on a POST to show_post a Comment is stored exactly when
the form validates and the current user is authenticated; in every other
case, including an authenticated user with an invalid form, the state is
unchanged and the request is redirected to login with the message about
needing to log in or register. -/
theorem C10_comment_iff (st : AppState) (pid : Nat) (fv : Bool) (text : String) :
    (∀ u, fv = true → current_user st = some u →
      show_post st pid true fv text
        = { flashes := [], response := .page "post.html",
            state := { st with db := { st.db with
              comments := st.db.comments ++ [{ id := st.db.nextCommentId, text := text,
                                               commenter_id := u.id, blog_post_id := pid }],
              nextCommentId := st.db.nextCommentId + 1 } } })
    ∧ (fv = false ∨ current_user st = none →
      show_post st pid true fv text
        = { flashes := ["You need to login or register to comment"],
            response := .redirectTo "login", state := st }) := by
  constructor
  · intro u hfv hu
    subst hfv
    simp [show_post, hu]
  · intro h
    rcases h with h | h
    · subst h
      simp [show_post]
    · cases fv with
      | false => simp [show_post]
      | true => simp [show_post, h]

/-- Witness for C10_comment_iff: user 2 with a valid form gets a stored
comment; the same POST from an anonymous visitor changes nothing and is
sent to login. -/
theorem C10_comment_iff_witness :
    show_post stUser2 1 true true "yo"
      = { flashes := [], response := .page "post.html",
          state := { stUser2 with db := { stUser2.db with
            comments := stUser2.db.comments ++ [{ id := stUser2.db.nextCommentId, text := "yo",
                                                  commenter_id := user2.id, blog_post_id := 1 }],
            nextCommentId := stUser2.db.nextCommentId + 1 } } }
    ∧ show_post stAnon 1 true true "yo"
      = { flashes := ["You need to login or register to comment"],
          response := .redirectTo "login", state := stAnon } :=
  ⟨(C10_comment_iff stUser2 1 true "yo").1 user2 rfl (by decide),
   (C10_comment_iff stAnon 1 true "yo").2 (Or.inr (by decide))⟩

/-- Claim C7, amended: when the administrator deletes an existing post,
the request redirects to the listing, the deleted id no longer occurs in
listPosts, the comments table is left untouched (orphan policy), and a
later view of that id renders the post page with no post instead of a
404. -/
theorem C7_delete_removes_post (st : AppState) (u : User) (post : BlogPost)
    (hu : current_user st = some u) (h1 : u.id = 1)
    (hp : st.db.posts.find? (fun p => p.id == post.id) = some post) :
    (delete_post st post.id).response = Response.redirectTo "get_all_posts"
    ∧ ((listPosts (delete_post st post.id).state.db).all (fun q => q.id != post.id)) = true
    ∧ (delete_post st post.id).state.db.comments = st.db.comments
    ∧ requested_post (delete_post st post.id).state post.id = none
    ∧ (show_post (delete_post st post.id).state post.id false true "").response
      = Response.page "post.html" := by
  have hd : delete_post st post.id
      = { flashes := [], response := .redirectTo "get_all_posts",
          state := { st with db := { st.db with
            posts := st.db.posts.filter (fun p => p.id != post.id) } } } := by
    simp [delete_post, admin_only, hu, h1, delete_post_body, hp]
  rw [hd]
  refine ⟨rfl, ?_, rfl, ?_, rfl⟩
  · simp only [listPosts, List.all_eq_true, List.mem_filter]
    intro q hq
    exact hq.2
  · simp only [requested_post, List.find?_eq_none, List.mem_filter]
    intro x hx
    simpa using hx.2

/-- Witness for C7_delete_removes_post: the administrator deletes post 1
of the concrete store. -/
theorem C7_delete_removes_post_witness :
    (delete_post stAdmin post1.id).response = Response.redirectTo "get_all_posts"
    ∧ ((listPosts (delete_post stAdmin post1.id).state.db).all
        (fun q => q.id != post1.id)) = true
    ∧ (delete_post stAdmin post1.id).state.db.comments = stAdmin.db.comments
    ∧ requested_post (delete_post stAdmin post1.id).state post1.id = none
    ∧ (show_post (delete_post stAdmin post1.id).state post1.id false true "").response
      = Response.page "post.html" :=
  C7_delete_removes_post stAdmin admin0 post1 (by decide) rfl (by decide)

/-- Claim C8: looking a registered user up by email, the credential check
succeeds exactly for the plaintext its stored hash was generated from;
and for a fixed plaintext, hashes generated with distinct salts (the
model of two separate registrations) are distinct values. -/
theorem C8_verify_iff (db : DB) (u : User) (s : Nat) (p q : String)
    (hfind : db.users.find? (fun x => x.email == u.email) = some u)
    (hpw : u.password = generate_password_hash s p) :
    ((verify db u.email q).isSome ↔ q = p)
    ∧ (∀ s1 s2 pw, s1 ≠ s2 → generate_password_hash s1 pw ≠ generate_password_hash s2 pw) := by
  constructor
  · rcases eq_or_ne q p with h | h
    · simp [verify, hfind, hpw, check_password_hash, generate_password_hash, h]
    · simp [verify, hfind, hpw, check_password_hash, generate_password_hash, h, Ne.symm h]
  · intro s1 s2 pw hne h
    exact hne (congrArg PasswordHash.salt h)

/-- Witness for C8_verify_iff: user 2 of the concrete store verifies
with its registration password. -/
theorem C8_verify_iff_witness :
    ((verify dbFull user2.email "bobpw").isSome ↔ "bobpw" = "bobpw") :=
  (C8_verify_iff dbFull user2 2 "bobpw" "bobpw" (by decide) rfl).1

/-- Replacing, in place, every post carrying a given id by a record that
still carries that id leaves find? on that id returning the replacement,
provided the id was found before. -/
theorem find?_map_update (l : List BlogPost) (pid : Nat) (post post2 : BlogPost)
    (hp : l.find? (fun p => p.id == pid) = some post) (h2 : post2.id = pid) :
    (l.map (fun p => if p.id = pid then post2 else p)).find? (fun p => p.id == pid)
      = some post2 := by
  induction l with
  | nil => simp at hp
  | cons a t ih =>
    by_cases ha : a.id = pid
    · simp [List.find?, if_pos ha, h2]
    · have hb : (a.id == pid) = false := by simpa using ha
      simp only [List.map_cons, if_neg ha]
      simp only [List.find?, hb] at hp ⊢
      exact ih hp

/-- Replacing, in place, every post carrying a given id by a record that
still carries that id does not change the posts with the other ids. -/
theorem filter_map_update (l : List BlogPost) (pid : Nat) (post2 : BlogPost)
    (h2 : post2.id = pid) :
    (l.map (fun p => if p.id = pid then post2 else p)).filter (fun p => p.id != pid)
      = l.filter (fun p => p.id != pid) := by
  induction l with
  | nil => rfl
  | cons a t ih =>
    by_cases ha : a.id = pid
    · simp [List.map_cons, if_pos ha, List.filter_cons, h2, ha, ih]
    · simp [List.map_cons, if_neg ha, List.filter_cons, ha, ih]

/-- Claim C9, amended: on an existing post a valid edit redirects to the
post view and replaces exactly the four form fields (title, subtitle,
image URL, body) of that record, keeping its id, author reference and
date and leaving every other post and the comments untouched; on an
unknown id the handler dies dereferencing the missing record instead of
failing with NotFound. -/
theorem C9_edit_replaces_fields (st : AppState) (u : User) (post : BlogPost)
    (t s iu b : String)
    (hu : current_user st = some u) (h1 : u.id = 1)
    (hp : st.db.posts.find? (fun p => p.id == post.id) = some post) :
    (edit_post st post.id true t s iu b).response = Response.redirectTo "show_post"
    ∧ requested_post (edit_post st post.id true t s iu b).state post.id
      = some { post with title := t, subtitle := s, img_url := iu, body := b }
    ∧ ((edit_post st post.id true t s iu b).state.db.posts.filter
        (fun p => p.id != post.id))
      = st.db.posts.filter (fun p => p.id != post.id)
    ∧ (edit_post st post.id true t s iu b).state.db.posts.length = st.db.posts.length
    ∧ (edit_post st post.id true t s iu b).state.db.comments = st.db.comments
    ∧ (∀ pid2, st.db.posts.find? (fun p => p.id == pid2) = none →
        edit_post st pid2 true t s iu b
          = { flashes := [],
              response := .crash "AttributeError: NoneType has no attribute title",
              state := st }) := by
  have he : edit_post st post.id true t s iu b
      = { flashes := [], response := .redirectTo "show_post",
          state := { st with db := { st.db with
            posts := st.db.posts.map (fun p =>
              if p.id = post.id
              then { post with title := t, subtitle := s, img_url := iu, body := b }
              else p) } } } := by
    simp [edit_post, admin_only, login_required, is_authenticated, hu, h1,
      edit_post_body, hp]
  refine ⟨by rw [he], ?_, ?_, ?_, by rw [he], ?_⟩
  · rw [he]
    exact find?_map_update st.db.posts post.id post _ hp rfl
  · rw [he]
    exact filter_map_update st.db.posts post.id _ rfl
  · rw [he]
    exact List.length_map _ _
  · intro pid2 hnone
    simp [edit_post, admin_only, login_required, is_authenticated, hu, h1,
      edit_post_body, hnone]

/-- Witness for C9_edit_replaces_fields: the administrator edits post 1
of the concrete store. -/
theorem C9_edit_replaces_fields_witness :
    (edit_post stAdmin post1.id true "T2" "S2" "U2" "B2").response
      = Response.redirectTo "show_post"
    ∧ requested_post (edit_post stAdmin post1.id true "T2" "S2" "U2" "B2").state post1.id
      = some { post1 with title := "T2", subtitle := "S2", img_url := "U2", body := "B2" } :=
  ⟨(C9_edit_replaces_fields stAdmin admin0 post1 "T2" "S2" "U2" "B2"
      (by decide) rfl (by decide)).1,
   (C9_edit_replaces_fields stAdmin admin0 post1 "T2" "S2" "U2" "B2"
      (by decide) rfl (by decide)).2.1⟩

end Blog
